import Mathlib

/-!
# SmartGeo mote firmware, board checkout header (rev 1.0)

A verification development over `board_checkout/E-000001-000009_firmware_rev_1_0.h`.
The header consists of object-like macros and function prototypes.  A macro whose
replacement list is one integer literal is embedded as that number, under the name
the header gives it.  The `SDHC_CMD_*` macros are embedded as their replacement
lists (the integer literals of the list, in order), because two of them are not a
single literal.
-/

namespace SmartGeo

/-! ## FRAM (Ramtron FM25V05-G) geometry, header lines 24-30 -/

/-- Header line 24: `#define FR_BASEADD 0x0000`. -/
def FR_BASEADD : Nat := 0x0000

/-- Header line 25: `#define FR_CAPACITY 65536 // 64KB`. -/
def FR_CAPACITY : Nat := 65536

/-- Header line 26: `#define FR_TOTAL_NUM_SAMPLES 7281`. -/
def FR_TOTAL_NUM_SAMPLES : Nat := 7281

/-- Header line 27: `#define FR_TOTAL_NUM_SE_SAMPLES 21843`. -/
def FR_TOTAL_NUM_SE_SAMPLES : Nat := 21843

/-- Header line 28: `#define FR_READ_BUFFER_SIZE 7281  // (bytes)`. -/
def FR_READ_BUFFER_SIZE : Nat := 7281

/-- Header line 29: `#define FR_READ_BUFFER_SAMPLES 809  // 7281 / 9 bytes per sample`. -/
def FR_READ_BUFFER_SAMPLES : Nat := 809

/-- Header line 30: `#define FR_NUM_READ_BUFFERS 9 // 65536 / 7281`. -/
def FR_NUM_READ_BUFFERS : Nat := 9

/-- Size in bytes of one three-channel record.  The header has no macro for it; the
number is the `9 bytes` of the comments on lines 26, 28 and 29. -/
def bytesPerSample3Ch : Nat := 9

/-- Size in bytes of one one-channel sample.  The header has no macro for it; the
number is the `3 bytes per channel` of the comment on line 27. -/
def bytesPerSampleSE : Nat := 3

/-! ## Hardware filter configuration, header lines 56-66 -/

/-- Header line 57: `#define FILTER_CH_1AND5_bm 0x01`. -/
def FILTER_CH_1AND5_bm : Nat := 0x01

/-- Header line 58: `#define FILTER_CH_2AND6_bm 0x02`. -/
def FILTER_CH_2AND6_bm : Nat := 0x02

/-- Header line 59: `#define FILTER_CH_3AND7_bm 0x04`. -/
def FILTER_CH_3AND7_bm : Nat := 0x04

/-- Header line 60: `#define FILTER_CH_4AND8_bm 0x08`. -/
def FILTER_CH_4AND8_bm : Nat := 0x08

/-- Header line 61: `#define FILTER_HP_0_bm 0x80`. -/
def FILTER_HP_0_bm : Nat := 0x80

/-- Header line 62: `#define FILTER_HP_2_bm 0x00`. -/
def FILTER_HP_2_bm : Nat := 0x00

/-- Header line 63: `#define FILTER_LP_INF_gc 0x00`. -/
def FILTER_LP_INF_gc : Nat := 0x00

/-- Header line 64: `#define FILTER_LP_32K_gc 0x10`. -/
def FILTER_LP_32K_gc : Nat := 0x10

/-- Header line 65: `#define FILTER_LP_6K_gc 0x20`. -/
def FILTER_LP_6K_gc : Nat := 0x20

/-- Header line 66: `#define FILTER_LP_600_gc 0x40`. -/
def FILTER_LP_600_gc : Nat := 0x40

/-- The four low-pass group codes of lines 63-66, in header order. -/
def filterLowPassCodes : List Nat :=
  [FILTER_LP_INF_gc, FILTER_LP_32K_gc, FILTER_LP_6K_gc, FILTER_LP_600_gc]

/-- The two high-pass codes of lines 61-62, in header order. -/
def filterHighPassCodes : List Nat := [FILTER_HP_0_bm, FILTER_HP_2_bm]

/-- The contribution of one optional bit mask to an OR-ed configuration byte: the
mask when it is chosen, nothing otherwise. -/
def chosen (pick : Bool) (mask : Nat) : Nat := if pick then mask else 0

/-- The OR of a chosen subset of the four channel-pair masks of lines 57-60. -/
def filterChannels (c1 c2 c3 c4 : Bool) : Nat :=
  chosen c1 FILTER_CH_1AND5_bm ||| chosen c2 FILTER_CH_2AND6_bm |||
    chosen c3 FILTER_CH_3AND7_bm ||| chosen c4 FILTER_CH_4AND8_bm

/-! ## Gain settings, header lines 111-119 -/

/-- Header line 112: `#define GAIN_1_gc 0x00`. -/
def GAIN_1_gc : Nat := 0x00

/-- Header line 113: `#define GAIN_2_gc 0x01`. -/
def GAIN_2_gc : Nat := 0x01

/-- Header line 114: `#define GAIN_4_gc 0x02`. -/
def GAIN_4_gc : Nat := 0x02

/-- Header line 115: `#define GAIN_8_gc 0x03`. -/
def GAIN_8_gc : Nat := 0x03

/-- Header line 116: `#define GAIN_16_gc 0x04`. -/
def GAIN_16_gc : Nat := 0x04

/-- Header line 117: `#define GAIN_32_gc 0x05`. -/
def GAIN_32_gc : Nat := 0x05

/-- Header line 118: `#define GAIN_64_gc 0x06`. -/
def GAIN_64_gc : Nat := 0x06

/-- Header line 119: `#define GAIN_128_gc 0x07`. -/
def GAIN_128_gc : Nat := 0x07

/-- The gain macros of lines 112-119 in header order, each paired with the
multiplier that its name carries: `(m, GAIN_m_gc)`. -/
def gainTable : List (Nat × Nat) :=
  [(1, GAIN_1_gc), (2, GAIN_2_gc), (4, GAIN_4_gc), (8, GAIN_8_gc),
   (16, GAIN_16_gc), (32, GAIN_32_gc), (64, GAIN_64_gc), (128, GAIN_128_gc)]

/-! ## SDHC command macros, header lines 132-156

Each macro is embedded as its replacement list: the integer literals that follow the
macro name on its `#define` line, in order. -/

/-- Header line 132: `#define SDHC_CMD_RESET 0x00`. -/
def SDHC_CMD_RESET : List Nat := [0x00]

/-- Header line 133: `#define SDHC_CMD_START_INITIALIZATION 0x01`. -/
def SDHC_CMD_START_INITIALIZATION : List Nat := [0x01]

/-- Header line 134: `#define SDHC_CMD_SEND_CSD 0x09`. -/
def SDHC_CMD_SEND_CSD : List Nat := [0x09]

/-- Header line 135: `#define SDHC_CMD_SEND_CID 0x0A`. -/
def SDHC_CMD_SEND_CID : List Nat := [0x0A]

/-- Header line 136: `#define SDHC_CMD_STOP_TRANSMISSION 0x0C     12`: two literals. -/
def SDHC_CMD_STOP_TRANSMISSION : List Nat := [0x0C, 12]

/-- Header line 137: `#define SDHC_CMD_SEND_STATUS 0x0           13`: two literals. -/
def SDHC_CMD_SEND_STATUS : List Nat := [0x0, 13]

/-- Header line 138: `#define SDHC_CMD_SET_BLOCK_SIZE        16`. -/
def SDHC_CMD_SET_BLOCK_SIZE : List Nat := [16]

/-- Header line 139: `#define SDHC_CMD_READ_SINGLE_BLOCK     17`. -/
def SDHC_CMD_READ_SINGLE_BLOCK : List Nat := [17]

/-- Header line 140: `#define SDHC_CMD_READ_MULTIPLE_BLOCKS  18`. -/
def SDHC_CMD_READ_MULTIPLE_BLOCKS : List Nat := [18]

/-- Header line 141: `#define SDHC_CMD_WRITE_SINGLE_BLOCK    24`. -/
def SDHC_CMD_WRITE_SINGLE_BLOCK : List Nat := [24]

/-- Header line 142: `#define SDHC_CMD_WRITE_MULTIPLE_BLOCKS 25`. -/
def SDHC_CMD_WRITE_MULTIPLE_BLOCKS : List Nat := [25]

/-- Header line 143: `#define SDHC_CMD_PROGRAM_CSD           27`. -/
def SDHC_CMD_PROGRAM_CSD : List Nat := [27]

/-- Header line 144: `#define SDHC_CMD_SET_WRITE_PROT        28`. -/
def SDHC_CMD_SET_WRITE_PROT : List Nat := [28]

/-- Header line 145: `#define SDHC_CMD_CLR_WRITE_PROT        29`. -/
def SDHC_CMD_CLR_WRITE_PROT : List Nat := [29]

/-- Header line 146: `#define SDHC_CMD_SEND_WRITE_PROT       30`. -/
def SDHC_CMD_SEND_WRITE_PROT : List Nat := [30]

/-- Header line 147: `#define SDHC_CMD_TAG_SECTOR_START      32`. -/
def SDHC_CMD_TAG_SECTOR_START : List Nat := [32]

/-- Header line 148: `#define SDHC_CMD_TAG_SECTOR_END        33`. -/
def SDHC_CMD_TAG_SECTOR_END : List Nat := [33]

/-- Header line 149: `#define SDHC_CMD_UNTAG_SECTOR          34`. -/
def SDHC_CMD_UNTAG_SECTOR : List Nat := [34]

/-- Header line 150: `#define SDHC_CMD_TAG_ERASE_GROUP_START 35`. -/
def SDHC_CMD_TAG_ERASE_GROUP_START : List Nat := [35]

/-- Header line 151: `#define SDHC_CMD_TAG_ERASE_GROUP_END   36`. -/
def SDHC_CMD_TAG_ERASE_GROUP_END : List Nat := [36]

/-- Header line 152: `#define SDHC_CMD_UNTAG_ERASE_GROUP     37`. -/
def SDHC_CMD_UNTAG_ERASE_GROUP : List Nat := [37]

/-- Header line 153: `#define SDHC_CMD_ERASE                 38`. -/
def SDHC_CMD_ERASE : List Nat := [38]

/-- Header line 154: `#define SDHC_CMD_LOCK_UNLOCK           42`. -/
def SDHC_CMD_LOCK_UNLOCK : List Nat := [42]

/-- Header line 155: `#define SDHC_CMD_READ_OCR              58`. -/
def SDHC_CMD_READ_OCR : List Nat := [58]

/-- Header line 156: `#define SDHC_CMD_CRC_ON_OFF            59`. -/
def SDHC_CMD_CRC_ON_OFF : List Nat := [59]

/-- The replacement lists of all 25 `SDHC_CMD_*` macros, in header order. -/
def sdhcCommandMacros : List (List Nat) :=
  [SDHC_CMD_RESET, SDHC_CMD_START_INITIALIZATION, SDHC_CMD_SEND_CSD, SDHC_CMD_SEND_CID,
   SDHC_CMD_STOP_TRANSMISSION, SDHC_CMD_SEND_STATUS, SDHC_CMD_SET_BLOCK_SIZE,
   SDHC_CMD_READ_SINGLE_BLOCK, SDHC_CMD_READ_MULTIPLE_BLOCKS, SDHC_CMD_WRITE_SINGLE_BLOCK,
   SDHC_CMD_WRITE_MULTIPLE_BLOCKS, SDHC_CMD_PROGRAM_CSD, SDHC_CMD_SET_WRITE_PROT,
   SDHC_CMD_CLR_WRITE_PROT, SDHC_CMD_SEND_WRITE_PROT, SDHC_CMD_TAG_SECTOR_START,
   SDHC_CMD_TAG_SECTOR_END, SDHC_CMD_UNTAG_SECTOR, SDHC_CMD_TAG_ERASE_GROUP_START,
   SDHC_CMD_TAG_ERASE_GROUP_END, SDHC_CMD_UNTAG_ERASE_GROUP, SDHC_CMD_ERASE,
   SDHC_CMD_LOCK_UNLOCK, SDHC_CMD_READ_OCR, SDHC_CMD_CRC_ON_OFF]

/-- The command numbers of the SD command table that the macros stand for, in
header order. -/
def sdhcCommandNumbers : List Nat :=
  [0, 1, 9, 10, 12, 13, 16, 17, 18, 24, 25, 27, 28, 29, 30, 32, 33, 34, 35, 36, 37, 38,
   42, 58, 59]

/-! ## SDHC data tokens and responses, header lines 157-161 -/

/-- Header line 158: `#define SDHC_RESPONSE_OK              0x05`. -/
def SDHC_RESPONSE_OK : Nat := 0x05

/-- Header line 159: `#define SDHC_RESPONSE_CRC_ERROR       0x0B`. -/
def SDHC_RESPONSE_CRC_ERROR : Nat := 0x0B

/-- Header line 160: `#define SDHC_RESPONSE_WRITE_ERROR     0x0D`. -/
def SDHC_RESPONSE_WRITE_ERROR : Nat := 0x0D

/-- Header line 161: `#define SDHC_RESPONSE_MASK            0x1F`. -/
def SDHC_RESPONSE_MASK : Nat := 0x1F

/-- The three data-response statuses of lines 158-160, in header order. -/
def sdhcResponseStatuses : List Nat :=
  [SDHC_RESPONSE_OK, SDHC_RESPONSE_CRC_ERROR, SDHC_RESPONSE_WRITE_ERROR]

/-! ## FRAM ring advance -/

/-- Modelled from the spec: the buffer-index step of `flush_buffer`, which the header
neither declares nor defines.  Section 4.4 of the specification: the flush
"advances to the next buffer index modulo 9, wrapping to 0 after the last"; the 9 is
`FR_NUM_READ_BUFFERS`. -/
def flushAdvance (index : Nat) : Nat := (index + 1) % FR_NUM_READ_BUFFERS

/-! ## Theorems -/

/-- C1: with 9-byte records laid out contiguously from `FR_BASEADD`, every record
index `k < FR_TOTAL_NUM_SAMPLES` has its byte range `[9k, 9k+9)` wholly inside read
buffer `k / FR_READ_BUFFER_SAMPLES`; 809 records fill buffer 0 exactly, with zero
bytes remaining, and the 810th record (index 809) starts at the first byte of
buffer 1. -/
theorem C1_record_within_buffer :
    (∀ k, k < FR_TOTAL_NUM_SAMPLES →
      FR_BASEADD + (k / FR_READ_BUFFER_SAMPLES) * FR_READ_BUFFER_SIZE
          ≤ FR_BASEADD + bytesPerSample3Ch * k ∧
        FR_BASEADD + bytesPerSample3Ch * k + bytesPerSample3Ch
          ≤ FR_BASEADD + (k / FR_READ_BUFFER_SAMPLES + 1) * FR_READ_BUFFER_SIZE ∧
        k / FR_READ_BUFFER_SAMPLES < FR_NUM_READ_BUFFERS) ∧
    FR_READ_BUFFER_SAMPLES * bytesPerSample3Ch = FR_READ_BUFFER_SIZE ∧
    FR_READ_BUFFER_SIZE - FR_READ_BUFFER_SAMPLES * bytesPerSample3Ch = 0 ∧
    (∀ k, k < FR_READ_BUFFER_SAMPLES → k / FR_READ_BUFFER_SAMPLES = 0) ∧
    FR_READ_BUFFER_SAMPLES / FR_READ_BUFFER_SAMPLES = 1 ∧
    FR_BASEADD + bytesPerSample3Ch * FR_READ_BUFFER_SAMPLES
      = FR_BASEADD + 1 * FR_READ_BUFFER_SIZE := by
  refine ⟨?_, by decide, by decide, ?_, by decide, by decide⟩
  · intro k hk
    simp only [FR_TOTAL_NUM_SAMPLES, FR_BASEADD, FR_READ_BUFFER_SAMPLES,
      FR_READ_BUFFER_SIZE, bytesPerSample3Ch, FR_NUM_READ_BUFFERS] at *
    omega
  · intro k hk
    simp only [FR_READ_BUFFER_SAMPLES] at *
    omega

/-- Witness of C1 at the last record of the ring, index 7280, which lies in buffer 8. -/
theorem C1_record_within_buffer_witness :
    7280 < FR_TOTAL_NUM_SAMPLES ∧
      FR_BASEADD + (7280 / FR_READ_BUFFER_SAMPLES) * FR_READ_BUFFER_SIZE
          ≤ FR_BASEADD + bytesPerSample3Ch * 7280 ∧
      FR_BASEADD + bytesPerSample3Ch * 7280 + bytesPerSample3Ch
          ≤ FR_BASEADD + (7280 / FR_READ_BUFFER_SAMPLES + 1) * FR_READ_BUFFER_SIZE :=
  ⟨by decide, (C1_record_within_buffer.1 7280 (by decide)).1,
    (C1_record_within_buffer.1 7280 (by decide)).2.1⟩

/-- C2: the FRAM partition is the 9 buffers the constants declare:
`FR_NUM_READ_BUFFERS` is the quotient `FR_CAPACITY / FR_READ_BUFFER_SIZE`, the 9
buffers end at or before `FR_CAPACITY`, every byte address of every buffer is below
65536 (16-bit address field), the unused tail is shorter than one 9-byte record, and
`FR_TOTAL_NUM_SAMPLES` is the largest number of whole 9-byte records that fits. -/
theorem C2_partition_fits_capacity :
    FR_NUM_READ_BUFFERS = FR_CAPACITY / FR_READ_BUFFER_SIZE ∧
    FR_NUM_READ_BUFFERS = 9 ∧
    FR_BASEADD + FR_NUM_READ_BUFFERS * FR_READ_BUFFER_SIZE ≤ FR_CAPACITY ∧
    (∀ b off, b < FR_NUM_READ_BUFFERS → off < FR_READ_BUFFER_SIZE →
      FR_BASEADD + b * FR_READ_BUFFER_SIZE + off < 65536 ∧
      FR_BASEADD + b * FR_READ_BUFFER_SIZE + off < 2 ^ 16) ∧
    FR_CAPACITY - 9 * FR_READ_BUFFER_SIZE < bytesPerSample3Ch ∧
    bytesPerSample3Ch * FR_TOTAL_NUM_SAMPLES ≤ FR_CAPACITY ∧
    FR_CAPACITY < bytesPerSample3Ch * (FR_TOTAL_NUM_SAMPLES + 1) ∧
    FR_TOTAL_NUM_SAMPLES = FR_CAPACITY / bytesPerSample3Ch := by
  refine ⟨by decide, by decide, by decide, ?_, by decide, by decide, by decide, by decide⟩
  intro b off hb hoff
  simp only [FR_NUM_READ_BUFFERS, FR_READ_BUFFER_SIZE, FR_BASEADD] at *
  omega

/-- Witness of C2 at the last byte of the last buffer, buffer 8 offset 7280. -/
theorem C2_partition_fits_capacity_witness :
    8 < FR_NUM_READ_BUFFERS ∧ 7280 < FR_READ_BUFFER_SIZE ∧
      FR_BASEADD + 8 * FR_READ_BUFFER_SIZE + 7280 < 65536 :=
  ⟨by decide, by decide,
    (C2_partition_fits_capacity.2.2.2.1 8 7280 (by decide) (by decide)).1⟩

/-- C3: the buffer advance on flush is `(index + 1) mod FR_NUM_READ_BUFFERS`: the
successor of every index below 9 is below 9, index 8 is followed by index 0, the
first ten flushes starting at index 0 target buffers 0, 1, ..., 8, 0, and nine
successive advances return to the index they started from. -/
theorem C3_flush_advance_wraps :
    (∀ i, flushAdvance i = (i + 1) % FR_NUM_READ_BUFFERS) ∧
    (∀ i, i < 9 → flushAdvance i < 9) ∧
    (∀ i, i < 8 → flushAdvance i = i + 1) ∧
    flushAdvance 8 = 0 ∧
    (List.range 10).map (fun n => flushAdvance^[n] 0) = [0, 1, 2, 3, 4, 5, 6, 7, 8, 0] ∧
    flushAdvance^[9] 0 = 0 ∧
    (∀ i, i < FR_NUM_READ_BUFFERS → flushAdvance^[9] i = i) := by
  refine ⟨fun _ => rfl, ?_, ?_, by decide, by decide, by decide, by decide⟩
  · intro i hi
    simp only [flushAdvance, FR_NUM_READ_BUFFERS]
    omega
  · intro i hi
    simp only [flushAdvance, FR_NUM_READ_BUFFERS]
    omega

/-- Witness of C3 at buffer index 8, the last one. -/
theorem C3_flush_advance_wraps_witness :
    8 < 9 ∧ flushAdvance 8 < 9 ∧ 8 < FR_NUM_READ_BUFFERS ∧ flushAdvance^[9] 8 = 8 :=
  ⟨by decide, C3_flush_advance_wraps.2.1 8 (by decide), by decide,
    C3_flush_advance_wraps.2.2.2.2.2.2 8 (by decide)⟩

/-- C5: decoding an SD data response by its low 5 bits is unambiguous: the three
statuses are pairwise distinct, each is unchanged by masking with
`SDHC_RESPONSE_MASK`, the mask keeps exactly the low 5 bits, a masked byte matches
at most one status, and a byte whose low 5 bits are the CRC-error or write-error
code, and the idle byte 0xFF, do not decode as OK. -/
theorem C5_response_decoding_unambiguous :
    sdhcResponseStatuses.Nodup ∧
    (∀ s, s ∈ sdhcResponseStatuses → s &&& SDHC_RESPONSE_MASK = s) ∧
    (∀ b : Nat, b &&& SDHC_RESPONSE_MASK = b % 2 ^ 5) ∧
    (∀ b s t : Nat, s ∈ sdhcResponseStatuses → t ∈ sdhcResponseStatuses →
      b &&& SDHC_RESPONSE_MASK = s → b &&& SDHC_RESPONSE_MASK = t → s = t) ∧
    (∀ b : Nat, b &&& SDHC_RESPONSE_MASK = SDHC_RESPONSE_CRC_ERROR →
      b &&& SDHC_RESPONSE_MASK ≠ SDHC_RESPONSE_OK) ∧
    (∀ b : Nat, b &&& SDHC_RESPONSE_MASK = SDHC_RESPONSE_WRITE_ERROR →
      b &&& SDHC_RESPONSE_MASK ≠ SDHC_RESPONSE_OK) ∧
    0xFF &&& SDHC_RESPONSE_MASK ≠ SDHC_RESPONSE_OK := by
  refine ⟨by decide, by decide, ?_, ?_, ?_, ?_, by decide⟩
  · intro b
    exact Nat.and_pow_two_sub_one_eq_mod b 5
  · intro b s t _ _ hs ht
    exact hs.symm.trans ht
  · intro b h
    rw [h]
    decide
  · intro b h
    rw [h]
    decide

/-- Witness of C5 at the response byte 0xEB, whose low 5 bits are the CRC-error
code. -/
theorem C5_response_decoding_unambiguous_witness :
    0xEB &&& SDHC_RESPONSE_MASK = SDHC_RESPONSE_CRC_ERROR ∧
      0xEB &&& SDHC_RESPONSE_MASK ≠ SDHC_RESPONSE_OK :=
  ⟨by decide, C5_response_decoding_unambiguous.2.2.2.2.1 0xEB (by decide)⟩

/-- C6: what the header holds for the `SDHC_CMD_*` macros.  The replacement list of
`SDHC_CMD_STOP_TRANSMISSION` is the two literals `0x0C 12` and that of
`SDHC_CMD_SEND_STATUS` the two literals `0x0 13`, so neither macro is the single
number 12 or 13 of its command, and the first literal of `SDHC_CMD_SEND_STATUS` is
the number of `SDHC_CMD_RESET`; the other 23 macros are the single numbers of their
commands, pairwise distinct and below 64. -/
theorem C6_sdhc_command_macros_evaluated :
    SDHC_CMD_STOP_TRANSMISSION = [12, 12] ∧
    SDHC_CMD_STOP_TRANSMISSION ≠ [12] ∧
    SDHC_CMD_SEND_STATUS = [0, 13] ∧
    SDHC_CMD_SEND_STATUS ≠ [13] ∧
    SDHC_CMD_SEND_STATUS.head? = SDHC_CMD_RESET.head? ∧
    sdhcCommandMacros.length = 25 ∧
    sdhcCommandMacros ≠ sdhcCommandNumbers.map (fun n => [n]) ∧
    sdhcCommandMacros.filter (fun m => m.length != 1)
      = [SDHC_CMD_STOP_TRANSMISSION, SDHC_CMD_SEND_STATUS] ∧
    (sdhcCommandMacros.filter (fun m => m.length == 1)).flatten
      = sdhcCommandNumbers.filter (fun n => n != 12 && n != 13) ∧
    sdhcCommandNumbers.Nodup ∧
    sdhcCommandNumbers.all (fun n => n < 64) = true := by
  refine ⟨by decide, by decide, by decide, by decide, by decide, by decide, by decide,
    by decide, by decide, by decide, by decide⟩

/-- C7: what the header holds for `FR_TOTAL_NUM_SE_SAMPLES`.  Its 21843 3-byte
samples fit in `FR_CAPACITY` (65529 bytes), but the count is not the largest number
of whole 3-byte samples that fits: one more sample ends at byte 65532 and two more at
byte 65535, both within `FR_CAPACITY`, and the largest count that fits is
`FR_CAPACITY / 3 = 21845`.  The sibling `FR_TOTAL_NUM_SAMPLES` of line 26 is the
largest count of 9-byte records, `FR_CAPACITY / 9`. -/
theorem C7_se_total_evaluated :
    FR_TOTAL_NUM_SE_SAMPLES = 21843 ∧
    bytesPerSampleSE * FR_TOTAL_NUM_SE_SAMPLES = 65529 ∧
    bytesPerSampleSE * FR_TOTAL_NUM_SE_SAMPLES ≤ FR_CAPACITY ∧
    ¬ (bytesPerSampleSE * (FR_TOTAL_NUM_SE_SAMPLES + 1) > FR_CAPACITY) ∧
    bytesPerSampleSE * (FR_TOTAL_NUM_SE_SAMPLES + 1) = 65532 ∧
    bytesPerSampleSE * (FR_TOTAL_NUM_SE_SAMPLES + 2) ≤ FR_CAPACITY ∧
    FR_CAPACITY / bytesPerSampleSE = 21845 ∧
    FR_TOTAL_NUM_SE_SAMPLES ≠ FR_CAPACITY / bytesPerSampleSE ∧
    FR_TOTAL_NUM_SAMPLES = FR_CAPACITY / bytesPerSample3Ch := by
  refine ⟨by decide, by decide, by decide, by decide, by decide, by decide, by decide,
    by decide, by decide⟩

/-- C8: the gain codes are the gain exponents: for every exponent `e` in 0..7 the
macro named after the multiplier `2^e` has the value `e`, so the multiplier selected
by a code `c` is `2^c`; the eight codes are pairwise distinct, are exactly 0..7 and
fit in 3 bits. -/
theorem C8_gain_codes_are_exponents :
    (∀ e, e < 8 → gainTable[e]? = some (2 ^ e, e)) ∧
    gainTable.length = 8 ∧
    (∀ p, p ∈ gainTable → p.1 = 2 ^ p.2 ∧ p.2 < 2 ^ 3) ∧
    (gainTable.map Prod.snd).Nodup ∧
    gainTable.map Prod.snd = List.range 8 ∧
    [GAIN_1_gc, GAIN_2_gc, GAIN_4_gc, GAIN_8_gc, GAIN_16_gc, GAIN_32_gc, GAIN_64_gc,
      GAIN_128_gc] = [0, 1, 2, 3, 4, 5, 6, 7] := by
  refine ⟨by decide, by decide, by decide, by decide, by decide, by decide⟩

/-- Witness of C8 at exponent 7, the macro `GAIN_128_gc`. -/
theorem C8_gain_codes_are_exponents_witness :
    7 < 8 ∧ gainTable[7]? = some (2 ^ 7, 7) ∧ (128, GAIN_128_gc) ∈ gainTable ∧
      (128, GAIN_128_gc).1 = 2 ^ (128, GAIN_128_gc).2 :=
  ⟨by decide, C8_gain_codes_are_exponents.1 7 (by decide), by decide,
    (C8_gain_codes_are_exponents.2.2.1 (128, GAIN_128_gc) (by decide)).1⟩

/-- Masking a composed filter byte gives back each of its three fields. -/
theorem filter_fields_recovered (lp hp : Nat) (c1 c2 c3 c4 : Bool)
    (hlp : lp ∈ filterLowPassCodes) (hhp : hp ∈ filterHighPassCodes) :
    (lp ||| hp ||| filterChannels c1 c2 c3 c4) &&& 0x70 = lp ∧
    (lp ||| hp ||| filterChannels c1 c2 c3 c4) &&& 0x80 = hp ∧
    (lp ||| hp ||| filterChannels c1 c2 c3 c4) &&& 0x0F = filterChannels c1 c2 c3 c4 := by
  have key : ∀ l ∈ filterLowPassCodes, ∀ h ∈ filterHighPassCodes, ∀ a b c d : Bool,
      (l ||| h ||| filterChannels a b c d) &&& 0x70 = l ∧
      (l ||| h ||| filterChannels a b c d) &&& 0x80 = h ∧
      (l ||| h ||| filterChannels a b c d) &&& 0x0F = filterChannels a b c d := by
    decide
  exact key lp hlp hp hhp c1 c2 c3 c4

/-- The channel-pair field tells which of the four masks were chosen. -/
theorem filter_channels_selected (c1 c2 c3 c4 : Bool) :
    (filterChannels c1 c2 c3 c4 &&& FILTER_CH_1AND5_bm = FILTER_CH_1AND5_bm ↔ c1 = true) ∧
    (filterChannels c1 c2 c3 c4 &&& FILTER_CH_2AND6_bm = FILTER_CH_2AND6_bm ↔ c2 = true) ∧
    (filterChannels c1 c2 c3 c4 &&& FILTER_CH_3AND7_bm = FILTER_CH_3AND7_bm ↔ c3 = true) ∧
    (filterChannels c1 c2 c3 c4 &&& FILTER_CH_4AND8_bm = FILTER_CH_4AND8_bm ↔ c4 = true) := by
  revert c1 c2 c3 c4
  decide

/-- C9: a filter configuration byte decodes uniquely into its three fields.  For
every byte that is the OR of one low-pass code, one high-pass code and any subset of
the four channel-pair bits, masking with 0x70, 0x80 and 0x0F gives back the chosen
low-pass code, high-pass code and channel subset, and each channel-pair bit is set in
the byte exactly when it was chosen; hence two choices that compose to the same byte
are the same choice.  The byte 0x40 decodes as `FILTER_LP_600_gc`, high-pass bit
clear (the code `FILTER_HP_2_bm`), no channel pair. -/
theorem C9_filter_byte_decodes_uniquely :
    (∀ lp hp c1 c2 c3 c4, lp ∈ filterLowPassCodes → hp ∈ filterHighPassCodes →
      (lp ||| hp ||| filterChannels c1 c2 c3 c4) &&& 0x70 = lp ∧
      (lp ||| hp ||| filterChannels c1 c2 c3 c4) &&& 0x80 = hp ∧
      (lp ||| hp ||| filterChannels c1 c2 c3 c4) &&& 0x0F = filterChannels c1 c2 c3 c4 ∧
      ((lp ||| hp ||| filterChannels c1 c2 c3 c4) &&& FILTER_CH_1AND5_bm ≠ 0 ↔ c1 = true) ∧
      ((lp ||| hp ||| filterChannels c1 c2 c3 c4) &&& FILTER_CH_2AND6_bm ≠ 0 ↔ c2 = true) ∧
      ((lp ||| hp ||| filterChannels c1 c2 c3 c4) &&& FILTER_CH_3AND7_bm ≠ 0 ↔ c3 = true) ∧
      ((lp ||| hp ||| filterChannels c1 c2 c3 c4) &&& FILTER_CH_4AND8_bm ≠ 0 ↔ c4 = true) ∧
      lp ||| hp ||| filterChannels c1 c2 c3 c4 < 256) ∧
    (∀ lp hp c1 c2 c3 c4 lp2 hp2 d1 d2 d3 d4,
      lp ∈ filterLowPassCodes → hp ∈ filterHighPassCodes →
      lp2 ∈ filterLowPassCodes → hp2 ∈ filterHighPassCodes →
      lp ||| hp ||| filterChannels c1 c2 c3 c4 = lp2 ||| hp2 ||| filterChannels d1 d2 d3 d4 →
      lp = lp2 ∧ hp = hp2 ∧ c1 = d1 ∧ c2 = d2 ∧ c3 = d3 ∧ c4 = d4) ∧
    0x40 = FILTER_LP_600_gc ||| FILTER_HP_2_bm ||| filterChannels false false false false ∧
    0x40 &&& 0x70 = FILTER_LP_600_gc ∧
    0x40 &&& 0x80 = 0 ∧
    0x40 &&& 0x80 = FILTER_HP_2_bm ∧
    0x40 &&& 0x80 ≠ FILTER_HP_0_bm ∧
    0x40 &&& 0x0F = 0 := by
  refine ⟨?_, ?_, by decide, by decide, by decide, by decide, by decide, by decide⟩
  · have key : ∀ l ∈ filterLowPassCodes, ∀ h ∈ filterHighPassCodes, ∀ a b c d : Bool,
        ((l ||| h ||| filterChannels a b c d) &&& FILTER_CH_1AND5_bm ≠ 0 ↔ a = true) ∧
        ((l ||| h ||| filterChannels a b c d) &&& FILTER_CH_2AND6_bm ≠ 0 ↔ b = true) ∧
        ((l ||| h ||| filterChannels a b c d) &&& FILTER_CH_3AND7_bm ≠ 0 ↔ c = true) ∧
        ((l ||| h ||| filterChannels a b c d) &&& FILTER_CH_4AND8_bm ≠ 0 ↔ d = true) ∧
        l ||| h ||| filterChannels a b c d < 256 := by
      decide
    intro lp hp c1 c2 c3 c4 hlp hhp
    obtain ⟨h1, h2, h3⟩ := filter_fields_recovered lp hp c1 c2 c3 c4 hlp hhp
    exact ⟨h1, h2, h3, key lp hlp hp hhp c1 c2 c3 c4⟩
  · intro lp hp c1 c2 c3 c4 lp2 hp2 d1 d2 d3 d4 hlp hhp hlp2 hhp2 heq
    obtain ⟨h1, h2, h3⟩ := filter_fields_recovered lp hp c1 c2 c3 c4 hlp hhp
    obtain ⟨k1, k2, k3⟩ := filter_fields_recovered lp2 hp2 d1 d2 d3 d4 hlp2 hhp2
    rw [heq] at h1 h2 h3
    have e3 : filterChannels c1 c2 c3 c4 = filterChannels d1 d2 d3 d4 := h3.symm.trans k3
    obtain ⟨a1, a2, a3, a4⟩ := filter_channels_selected c1 c2 c3 c4
    obtain ⟨b1, b2, b3, b4⟩ := filter_channels_selected d1 d2 d3 d4
    rw [e3] at a1 a2 a3 a4
    refine ⟨h1.symm.trans k1, h2.symm.trans k2, ?_, ?_, ?_, ?_⟩
    · exact Bool.eq_iff_iff.mpr (a1.symm.trans b1)
    · exact Bool.eq_iff_iff.mpr (a2.symm.trans b2)
    · exact Bool.eq_iff_iff.mpr (a3.symm.trans b3)
    · exact Bool.eq_iff_iff.mpr (a4.symm.trans b4)

/-- Witness of C9 at the byte 0xA5: low-pass 6 kHz code, high-pass code 0x80, channel
pairs 1AND5 and 3AND7. -/
theorem C9_filter_byte_decodes_uniquely_witness :
    FILTER_LP_6K_gc ∈ filterLowPassCodes ∧ FILTER_HP_0_bm ∈ filterHighPassCodes ∧
      FILTER_LP_6K_gc ||| FILTER_HP_0_bm ||| filterChannels true false true false = 0xA5 ∧
      (FILTER_LP_6K_gc ||| FILTER_HP_0_bm ||| filterChannels true false true false)
        &&& 0x70 = FILTER_LP_6K_gc :=
  ⟨by decide, by decide, by decide,
    (C9_filter_byte_decodes_uniquely.1 FILTER_LP_6K_gc FILTER_HP_0_bm true false true false
      (by decide) (by decide)).1⟩

/-- C10: the 3-channel and 1-channel FRAM geometries agree: the 9 buffers hold
exactly `FR_TOTAL_NUM_SAMPLES` 9-byte records, the `FR_TOTAL_NUM_SE_SAMPLES` 3-byte
samples occupy the same bytes as the `FR_TOTAL_NUM_SAMPLES` 9-byte records, which are
the `FR_NUM_READ_BUFFERS` buffers of `FR_READ_BUFFER_SIZE` bytes, each buffer holds a
whole number, 2427, of 3-byte samples, and no 3-byte sample crosses a buffer
boundary. -/
theorem C10_geometries_consistent :
    FR_NUM_READ_BUFFERS * FR_READ_BUFFER_SAMPLES = FR_TOTAL_NUM_SAMPLES ∧
    bytesPerSampleSE * FR_TOTAL_NUM_SE_SAMPLES = bytesPerSample3Ch * FR_TOTAL_NUM_SAMPLES ∧
    3 * FR_TOTAL_NUM_SE_SAMPLES = 9 * FR_TOTAL_NUM_SAMPLES ∧
    bytesPerSampleSE * FR_TOTAL_NUM_SE_SAMPLES = FR_NUM_READ_BUFFERS * FR_READ_BUFFER_SIZE ∧
    FR_READ_BUFFER_SIZE % bytesPerSampleSE = 0 ∧
    FR_READ_BUFFER_SIZE / bytesPerSampleSE = 2427 ∧
    FR_NUM_READ_BUFFERS * 2427 = FR_TOTAL_NUM_SE_SAMPLES ∧
    (∀ j, j < FR_TOTAL_NUM_SE_SAMPLES →
      FR_BASEADD + (j / 2427) * FR_READ_BUFFER_SIZE ≤ FR_BASEADD + bytesPerSampleSE * j ∧
      FR_BASEADD + bytesPerSampleSE * j + bytesPerSampleSE
        ≤ FR_BASEADD + (j / 2427 + 1) * FR_READ_BUFFER_SIZE ∧
      j / 2427 < FR_NUM_READ_BUFFERS) := by
  refine ⟨by decide, by decide, by decide, by decide, by decide, by decide, by decide, ?_⟩
  intro j hj
  simp only [FR_TOTAL_NUM_SE_SAMPLES, FR_BASEADD, FR_READ_BUFFER_SIZE, bytesPerSampleSE,
    FR_NUM_READ_BUFFERS] at *
  omega

/-- Witness of C10 at the last one-channel sample, index 21842, which lies in
buffer 8. -/
theorem C10_geometries_consistent_witness :
    21842 < FR_TOTAL_NUM_SE_SAMPLES ∧
      FR_BASEADD + bytesPerSampleSE * 21842 + bytesPerSampleSE
        ≤ FR_BASEADD + (21842 / 2427 + 1) * FR_READ_BUFFER_SIZE :=
  ⟨by decide, (C10_geometries_consistent.2.2.2.2.2.2.2 21842 (by decide)).2.1⟩

end SmartGeo
